import Mathlib

/-!
Shallow embedding of the `defined` crate: a tri-state presence value
`Optional` (src/optional.rs), its binary sibling `Defined` (src/defined.rs),
and the codec / ORM / schema adapters (src/integrations/serde.rs, sea.rs,
oasgen.rs, schemars.rs). Rust panics are modelled as `Except String`,
fallible decoding as `Except E`, and external collaborators (the serde
serializer, the sea-query value domain, the oasgen schema record) as
explicit parameters.
-/

universe u v w

/-- Ternary presence value from src/optional.rs lines 23-27: `Undef` is the
absent state, `Null` the explicit-null state, `Def v` the present state. -/
inductive Optional (T : Type u) where
  | Undef : Optional T
  | Null : Optional T
  | Def : T → Optional T
  deriving Repr, DecidableEq

/-- Binary presence value from src/defined.rs lines 6-9: `Undef` is the
absent state, `Def v` the present state. -/
inductive Defined (T : Type u) where
  | Undef : Defined T
  | Def : T → Defined T
  deriving Repr, DecidableEq

/-- Optional::is_def, src/optional.rs lines 99-101. -/
def Optional.is_def {T : Type u} : Optional T → Bool
  | .Def _ => true
  | _ => false

/-- Defined::is_def, src/defined.rs lines 69-71. -/
def Defined.is_def {T : Type u} : Defined T → Bool
  | .Def _ => true
  | _ => false

/-- Optional::is_null, src/optional.rs lines 146-148. -/
def Optional.is_null {T : Type u} : Optional T → Bool
  | .Null => true
  | _ => false

/-- Conversion impl From for Option into Optional, src/optional.rs lines
63-70: `Some(v)` becomes `Def v`, `None` becomes `Null`. -/
def Optional.fromOption {T : Type u} : Option T → Optional T
  | some v => .Def v
  | none => .Null

/-- Conversion impl From for Optional into Option of Option, src/optional.rs
lines 305-313: `Def val` becomes `Some(Some(val))`, `Null` becomes `None`,
`Undef` becomes `Some(None)`. -/
def Optional.toOptionOption {T : Type u} : Optional T → Option (Option T)
  | .Def val => some (some val)
  | .Null => none
  | .Undef => some none

/-- Conversion impl From for Optional into Option, src/optional.rs lines
315-322: `Def val` becomes `Some(val)`, anything else becomes `None`. -/
def Optional.toOption {T : Type u} : Optional T → Option T
  | .Def val => some val
  | _ => none

/-- Optional::def_or, src/optional.rs lines 296-303. -/
def Optional.def_or {T : Type u} (x : Optional T) (default : T) : Option T :=
  match x with
  | .Def val => some val
  | .Null => none
  | .Undef => some default

/-- Optional::map, src/optional.rs lines 216-226. -/
def Optional.map {T : Type u} {U : Type v} (f : T → U) : Optional T → Optional U
  | .Undef => .Undef
  | .Null => .Null
  | .Def val => .Def (f val)

/-- Defined::map, src/defined.rs lines 161-170. -/
def Defined.map {T : Type u} {U : Type v} (f : T → U) : Defined T → Defined U
  | .Undef => .Undef
  | .Def val => .Def (f val)

/-- The fixed panic message of Optional::unwrap, src/optional.rs line 182. -/
def Optional.unwrapDefaultMsg : String :=
  "called Optional::unwrap() on a `Optional::Null` value"

/-- Optional::unwrap, src/optional.rs lines 177-184; the Rust panic on a
non-Def variant is modelled as an `Except.error` carrying the panic
message. -/
def Optional.unwrap {T : Type u} : Optional T → Except String T
  | .Def val => .ok val
  | _ => .error Optional.unwrapDefaultMsg

/-- Optional::expect, src/optional.rs lines 168-175; the panic raised through
expect_failed carries the caller-supplied message. -/
def Optional.expect {T : Type u} (x : Optional T) (msg : String) : Except String T :=
  match x with
  | .Def val => .ok val
  | _ => .error msg

/-- The fixed panic message of Defined::unwrap, src/defined.rs line 127. -/
def Defined.unwrapDefaultMsg : String :=
  "called Defined::unwrap() on a `Defined::Undef` value"

/-- Defined::unwrap, src/defined.rs lines 122-129, panics modelled as
`Except.error`. -/
def Defined.unwrap {T : Type u} : Defined T → Except String T
  | .Def val => .ok val
  | _ => .error Defined.unwrapDefaultMsg

/-- Defined::expect, src/defined.rs lines 113-120. -/
def Defined.expect {T : Type u} (x : Defined T) (msg : String) : Except String T :=
  match x with
  | .Def val => .ok val
  | _ => .error msg

/-- Name of the active variant of an `Optional`, as it appears in the Rust
source; used to state that a panic message names the variant. -/
def Optional.variantName {T : Type u} : Optional T → String
  | .Undef => "Undef"
  | .Null => "Null"
  | .Def _ => "Def"

/-- Tests whether the character list `p` occurs contiguously at the start of
`s`; helper for substring containment over panic messages. -/
def charsStart : List Char → List Char → Bool
  | _, [] => true
  | [], _ :: _ => false
  | a :: s, b :: p => a == b && charsStart s p

/-- Tests whether the character list `p` occurs contiguously anywhere in
`s`. -/
def charsContain (s p : List Char) : Bool :=
  match s with
  | [] => charsStart [] p
  | _ :: rest => charsStart s p || charsContain rest p

/-- Substring containment on strings, used to state that a panic message
names a variant or a type. -/
def strContains (s pat : String) : Bool :=
  charsContain s.data pat.data

/-- The serde decode callback visit_unit of OptionalVisitor,
src/integrations/serde.rs lines 20-26: a unit token decodes to `Null`. -/
def OptionalVisitor.visit_unit (T : Type u) (E : Type v) : Except E (Optional T) :=
  .ok .Null

/-- The serde decode callback visit_none of OptionalVisitor,
src/integrations/serde.rs lines 28-34: a none token decodes to `Null`. -/
def OptionalVisitor.visit_none (T : Type u) (E : Type v) : Except E (Optional T) :=
  .ok .Null

/-- The serde decode callback visit_some of OptionalVisitor,
src/integrations/serde.rs lines 36-42: the inner deserializer of `T` runs on
the payload and its result is wrapped in `Def`; its error is propagated by
`map`. `decodeT` stands for the external `T::deserialize`. -/
def OptionalVisitor.visit_some {T : Type u} {E : Type v} {D : Type w}
    (decodeT : D → Except E T) (d : D) : Except E (Optional T) :=
  (decodeT d).map Optional.Def

/-- The serde Serialize impl for Optional, src/integrations/serde.rs lines
69-83: `Def value` forwards to serialize_some over the inner value, every
other variant to serialize_none. The external serializer is modelled by its
two entry points: `encodeT` (the representation serialize_some produces for
the inner value) and `nullTok` (the canonical null representation produced by
serialize_none). -/
def Optional.serialize {T : Type u} {Tok : Type v}
    (encodeT : T → Tok) (nullTok : Tok) : Optional T → Tok
  | .Def value => encodeT value
  | _ => nullTok

/-- The sea-query conversion impl From for Defined into Value,
src/integrations/sea.rs lines 5-15: `Def v` becomes the native value of `T`
(`v.into()`, modelled by `intoValue`), `Undef` becomes the canonical null
value `T::null()` (modelled by `nullValue`). -/
def Defined.intoValue {T : Type u} {V : Type v}
    (intoValue : T → V) (nullValue : V) : Defined T → V
  | .Def v => intoValue v
  | .Undef => nullValue

/-- The sea-query ValueType::try_from impl for Defined,
src/integrations/sea.rs lines 21-27: the incoming value is first compared for
equality with `T::null()`; on a match the result is `Undef`, otherwise
`T::try_from` (modelled by `tryFromT`) decodes it and the result is wrapped
in `Def`, propagating only the inner error. -/
def Defined.try_from {T : Type u} {V : Type v} {E : Type w} [DecidableEq V]
    (nullValue : V) (tryFromT : V → Except E T) (v : V) : Except E (Defined T) :=
  if v = nullValue then .ok .Undef
  else (tryFromT v).map Defined.Def

/-- The oasgen schema record, modelled by its flag-based `nullable` field
plus an abstract `payload` standing for every other field of the descriptor
of `T`. -/
structure OasSchema (P : Type u) where
  nullable : Bool
  payload : P
  deriving Repr, DecidableEq

/-- The OaSchema::schema impl for Defined, src/integrations/oasgen.rs lines
15-19: it takes the schema of `T` and sets its nullable flag to true,
leaving everything else unchanged. -/
def Defined.oaSchema {P : Type u} (tSchema : OasSchema P) : OasSchema P :=
  { tSchema with nullable := true }

/-- The JsonSchema::is_referenceable impl for Defined,
src/integrations/schemars.rs lines 9-11: the wrapped type is never
referenceable, it is always inlined. -/
def Defined.is_referenceable : Bool := false

/-- Claim C3: `def_or d` returns `none` on `Null` (explicit null collapses to
native absence), `some d` on `Undef` (absent), and `some v` on `Def v`. -/
theorem optional_def_or_spec (T : Type u) (v d : T) :
    (Optional.Null : Optional T).def_or d = none ∧
    (Optional.Undef : Optional T).def_or d = some d ∧
    (Optional.Def v).def_or d = some v :=
  ⟨rfl, rfl, rfl⟩

/-- Claim C5: the conversion from a native optional to the ternary presence
value maps `some v` to `Def v` and `none` to `Null` (explicit null), never to
`Undef` (absent). -/
theorem optional_from_option_spec (T : Type u) (v : T) :
    Optional.fromOption (some v) = Optional.Def v ∧
    Optional.fromOption (none : Option T) = Optional.Null ∧
    Optional.fromOption (none : Option T) ≠ Optional.Undef := by
  refine ⟨rfl, rfl, ?_⟩
  simp [Optional.fromOption]

/-- Witness for C5 at `T = Nat`, `v = 5`. -/
theorem optional_from_option_spec_witness :
    Optional.fromOption (some (5 : Nat)) = Optional.Def 5 ∧
    Optional.fromOption (none : Option Nat) = Optional.Null :=
  ⟨(optional_from_option_spec Nat 5).1, (optional_from_option_spec Nat 5).2.1⟩

/-- Claim C9: `map f` sends `Def v` to `Def (f v)` and leaves every
non-present variant (`Undef`, and `Null` for the ternary type) unchanged, for
both presence types; the non-present equations do not mention `f`, so the
transform is only ever applied to a present payload. -/
theorem map_preserves_variant_spec (T : Type u) (U : Type v) (f : T → U) (v : T) :
    Optional.map f (.Def v) = .Def (f v) ∧
    Optional.map f (.Null : Optional T) = .Null ∧
    Optional.map f (.Undef : Optional T) = .Undef ∧
    Defined.map f (.Def v) = .Def (f v) ∧
    Defined.map f (.Undef : Defined T) = .Undef :=
  ⟨rfl, rfl, rfl, rfl, rfl⟩

/-- Claim C10: converting a native optional to the ternary presence value and
back is the identity: `some v` goes through `Def v` back to `some v`, and
`none` goes through `Null` back to `none`. -/
theorem option_optional_roundtrip (T : Type u) (o : Option T) :
    Optional.toOption (Optional.fromOption o) = o := by
  cases o <;> rfl

/-- Claim C4: under the codec encode adapter, `Def v` encodes as the inner
value's own encoded representation, while `Undef` and `Null` both encode as
the canonical null representation, so the two non-present variants are
indistinguishable on the wire. -/
theorem optional_serialize_spec (T : Type u) (Tok : Type v)
    (encodeT : T → Tok) (nullTok : Tok) (v : T) :
    Optional.serialize encodeT nullTok (.Def v) = encodeT v ∧
    Optional.serialize encodeT nullTok (.Undef : Optional T) = nullTok ∧
    Optional.serialize encodeT nullTok (.Null : Optional T) = nullTok ∧
    Optional.serialize encodeT nullTok (.Undef : Optional T)
      = Optional.serialize encodeT nullTok (.Null : Optional T) :=
  ⟨rfl, rfl, rfl, rfl⟩

/-- Claim C8: the schema adapter of the wrapped type under the flag-based
nullable dialect (oasgen) sets the nullable flag to true and leaves every
other part of the descriptor of `T` unchanged, and the wrapped type reports
itself as non-referenceable (schemars is_referenceable is false). -/
theorem defined_schema_nullable_spec (P : Type u) (s : OasSchema P) :
    (Defined.oaSchema s).nullable = true ∧
    (Defined.oaSchema s).payload = s.payload ∧
    Defined.is_referenceable = false :=
  ⟨rfl, rfl, rfl⟩

/-- Claim C1 counterexample: the widening to optional-of-optional does NOT
map the explicit-null variant to `some none`; in the code `Null` maps to
`none` and `Undef` maps to `some none`, the opposite of the claimed
assignment, exhibited here at `T = Nat`. -/
theorem optional_widening_null_not_some_none :
    Optional.toOptionOption (Optional.Null : Optional Nat) ≠ some (none : Option Nat) ∧
    Optional.toOptionOption (Optional.Null : Optional Nat) = none ∧
    Optional.toOptionOption (Optional.Undef : Optional Nat) = some (none : Option Nat) := by
  refine ⟨?_, rfl, rfl⟩
  simp [Optional.toOptionOption]

/-- Claim C1 (amended): the widening to optional-of-optional maps `Def v` to
`some (some v)`, `Null` to `none`, and `Undef` to `some none`; the images of
`Undef` and `Null` are distinct, so the two non-present variants are never
conflated under this mapping. -/
theorem optional_widening_spec (T : Type u) (v : T) :
    Optional.toOptionOption (Optional.Def v) = some (some v) ∧
    Optional.toOptionOption (Optional.Null : Optional T) = none ∧
    Optional.toOptionOption (Optional.Undef : Optional T) = some none ∧
    Optional.toOptionOption (Optional.Undef : Optional T)
      ≠ Optional.toOptionOption (Optional.Null : Optional T) := by
  refine ⟨rfl, rfl, rfl, ?_⟩
  simp [Optional.toOptionOption]

/-- Witness for C1 (amended) at `T = Nat`, `v = 5`. -/
theorem optional_widening_spec_witness :
    Optional.toOptionOption (Optional.Def (5 : Nat)) = some (some 5) ∧
    Optional.toOptionOption (Optional.Undef : Optional Nat)
      ≠ Optional.toOptionOption (Optional.Null : Optional Nat) :=
  ⟨(optional_widening_spec Nat 5).1, (optional_widening_spec Nat 5).2.2.2⟩

/-- Claim C2: both null/unit codec signals (visit_unit and visit_none) decode
to `Null`, never to `Undef`, and a value signal (visit_some) decodes the
payload with the inner decoder of `T`, wrapping success in `Def` and
propagating any inner decode failure unchanged. -/
theorem optional_visitor_decode_spec (T : Type u) (E : Type v) (D : Type w)
    (decodeT : D → Except E T) (d : D) :
    OptionalVisitor.visit_unit T E = .ok .Null ∧
    OptionalVisitor.visit_none T E = .ok .Null ∧
    OptionalVisitor.visit_unit T E ≠ .ok .Undef ∧
    OptionalVisitor.visit_none T E ≠ .ok .Undef ∧
    (∀ v : T, decodeT d = .ok v → OptionalVisitor.visit_some decodeT d = .ok (.Def v)) ∧
    (∀ e : E, decodeT d = .error e → OptionalVisitor.visit_some decodeT d = .error e) := by
  refine ⟨rfl, rfl, ?_, ?_, ?_, ?_⟩
  · simp [OptionalVisitor.visit_unit]
  · simp [OptionalVisitor.visit_none]
  · intro v h
    simp [OptionalVisitor.visit_some, h, Except.map]
  · intro e h
    simp [OptionalVisitor.visit_some, h, Except.map]

/-- Witness for C2 with a concrete inner decoder on `Nat` that fails on `0`:
decoding the value token `1` yields `Def 1` and decoding the value token `0`
propagates the inner error. -/
theorem optional_visitor_decode_spec_witness :
    OptionalVisitor.visit_some
      (fun n : Nat => if n = 0 then (Except.error "zero" : Except String Nat) else Except.ok n) 1
      = Except.ok (Optional.Def 1) ∧
    OptionalVisitor.visit_some
      (fun n : Nat => if n = 0 then (Except.error "zero" : Except String Nat) else Except.ok n) 0
      = Except.error "zero" := by
  have h1 := optional_visitor_decode_spec Nat String Nat
    (fun n : Nat => if n = 0 then (Except.error "zero" : Except String Nat) else Except.ok n) 1
  have h0 := optional_visitor_decode_spec Nat String Nat
    (fun n : Nat => if n = 0 then (Except.error "zero" : Except String Nat) else Except.ok n) 0
  exact ⟨h1.2.2.2.2.1 1 (by simp), h0.2.2.2.2.2 "zero" (by simp)⟩

/-- Claim C6 counterexample: unwrap on the absent variant `Undef` does panic,
but the fixed default message does not name the actual variant — it always
says `Optional::Null`, and the name of the `Undef` variant does not occur in
it, exhibited here at `T = Nat`. -/
theorem optional_unwrap_msg_misnames_variant :
    Optional.unwrap (Optional.Undef : Optional Nat) = Except.error Optional.unwrapDefaultMsg ∧
    strContains Optional.unwrapDefaultMsg
      (Optional.variantName (Optional.Undef : Optional Nat)) = false := by
  refine ⟨rfl, ?_⟩
  decide

/-- Claim C6 (amended): unwrap and expect on `Def v` return `v`; on any
non-present variant, expect panics with exactly the caller-supplied message
and unwrap panics with the fixed default message; each default message names
its type, and it names the variant `Null` for the ternary type (even when the
value is `Undef`) and the variant `Undef` for the binary type. -/
theorem unwrap_expect_spec (T : Type u) (v : T) (msg : String)
    (x : Optional T) (y : Defined T) :
    Optional.unwrap (.Def v) = .ok v ∧
    Optional.expect (.Def v) msg = .ok v ∧
    Defined.unwrap (.Def v) = .ok v ∧
    Defined.expect (.Def v) msg = .ok v ∧
    (x.is_def = false →
      Optional.unwrap x = .error Optional.unwrapDefaultMsg ∧
      Optional.expect x msg = .error msg) ∧
    (y.is_def = false →
      Defined.unwrap y = .error Defined.unwrapDefaultMsg ∧
      Defined.expect y msg = .error msg) ∧
    strContains Optional.unwrapDefaultMsg "Optional" = true ∧
    strContains Optional.unwrapDefaultMsg "Null" = true ∧
    strContains Defined.unwrapDefaultMsg "Defined" = true ∧
    strContains Defined.unwrapDefaultMsg "Undef" = true := by
  refine ⟨rfl, rfl, rfl, rfl, ?_, ?_, by decide, by decide, by decide, by decide⟩
  · intro h
    cases x with
    | Def a => simp [Optional.is_def] at h
    | Null => exact ⟨rfl, rfl⟩
    | Undef => exact ⟨rfl, rfl⟩
  · intro h
    cases y with
    | Def a => simp [Defined.is_def] at h
    | Undef => exact ⟨rfl, rfl⟩

/-- Witness for C6 (amended) at `T = Nat` with the non-present values `Undef`
(ternary), `Null` (ternary) and `Undef` (binary). -/
theorem unwrap_expect_spec_witness :
    Optional.unwrap (Optional.Undef : Optional Nat)
      = Except.error Optional.unwrapDefaultMsg ∧
    Optional.expect (Optional.Null : Optional Nat) "boom" = Except.error "boom" ∧
    Defined.unwrap (Defined.Undef : Defined Nat)
      = Except.error Defined.unwrapDefaultMsg := by
  have h := unwrap_expect_spec Nat 0 "boom" Optional.Undef Defined.Undef
  have h2 := unwrap_expect_spec Nat 0 "boom" Optional.Null Defined.Undef
  exact ⟨(h.2.2.2.2.1 rfl).1, (h2.2.2.2.2.1 rfl).2, (h.2.2.2.2.2.1 rfl).1⟩

/-- Claim C7: the ORM value adapter encodes `Def v` as the native driver
value of `T` and the non-present variant as the canonical null value; on
decode it first tests the incoming value for equality against the canonical
null value, yielding `Undef` on a match, and otherwise delegates to the value
decoder of `T`, wrapping success in `Def` and propagating only the inner
decode errors. -/
theorem defined_sea_value_spec (T : Type u) (V : Type v) (E : Type w) [DecidableEq V]
    (intoV : T → V) (nullValue : V) (tryFromT : V → Except E T) (v : T) (val : V) :
    Defined.intoValue intoV nullValue (.Def v) = intoV v ∧
    Defined.intoValue intoV nullValue (.Undef : Defined T) = nullValue ∧
    Defined.try_from nullValue tryFromT nullValue = (.ok .Undef : Except E (Defined T)) ∧
    (val ≠ nullValue →
      Defined.try_from nullValue tryFromT val = (tryFromT val).map Defined.Def) ∧
    (val ≠ nullValue → ∀ e : E, tryFromT val = .error e →
      Defined.try_from nullValue tryFromT val = .error e) := by
  refine ⟨rfl, rfl, ?_, ?_, ?_⟩
  · simp [Defined.try_from]
  · intro h
    simp [Defined.try_from, h]
  · intro h e he
    simp [Defined.try_from, h, he, Except.map]

/-- Witness for C7 with the driver value domain `Option Nat`, canonical null
`none`, native encoding `some`, and an inner decoder that rejects `none`:
encoding and decoding behave as stated on `Def 5`, `Undef`, the null value
and the non-null value `some 5`. -/
theorem defined_sea_value_spec_witness :
    Defined.intoValue some (none : Option Nat) (Defined.Def 5) = some 5 ∧
    Defined.intoValue some (none : Option Nat) (Defined.Undef : Defined Nat) = none ∧
    Defined.try_from (none : Option Nat)
      (fun o : Option Nat => match o with
        | some n => (Except.ok n : Except String Nat)
        | none => Except.error "null") none
      = Except.ok (Defined.Undef : Defined Nat) ∧
    Defined.try_from (none : Option Nat)
      (fun o : Option Nat => match o with
        | some n => (Except.ok n : Except String Nat)
        | none => Except.error "null") (some 5)
      = Except.ok (Defined.Def 5) := by
  have h := defined_sea_value_spec Nat (Option Nat) String some none
    (fun o : Option Nat => match o with
      | some n => (Except.ok n : Except String Nat)
      | none => Except.error "null") 5 (some 5)
  refine ⟨h.1, h.2.1, h.2.2.1, ?_⟩
  rw [h.2.2.2.1 (by simp)]
  rfl
